import Mathlib

/-!
Verification of the client-side time-series pipeline and the `/api/types`
proxy route of the admin panel.

The embedding models JavaScript numbers as `ℚ` (with an explicit `priceIsNaN`
flag where the code tests `isNaN`), timestamps as `Nat` milliseconds, and the
impure ingredients of the page (locale/ISO date formatting, `Math.random`
time-of-day strings, `Math.sin`/`Math.cos`, the "now" timestamp) as explicit
function parameters collected in `JsEnv`.  The ECMAScript stable
`Array.prototype.sort` is modelled by the stable `List.insertionSort`.
Calendar-day arithmetic is modelled as a fixed 86400000 ms per day.
-/

/-- One price point as held in component state (interface `PriceData`).
`priceIsNaN` models `isNaN(purchase_price)` for a JS number. -/
structure PriceData where
  purchase_price : ℚ
  priceIsNaN : Bool
  Date : String
  formattedDate : String
  formattedTime : String
  formattedDateTime : String
  timestamp : Nat
deriving DecidableEq

/-- A raw point of the upstream payload before normalization. -/
structure RawPoint where
  purchase_price : ℚ
  priceIsNaN : Bool
  DateStr : String
deriving DecidableEq

/-- Result of successfully parsing a date string (`new Date(s)` plus the
locale formatting performed at ingestion). -/
structure DateInfo where
  timestamp : Nat
  localeDate : String
  localeTime : String
deriving DecidableEq

/-- `type TimePeriod = "1W" | "1M" | "3M" | "6M" | "1Y" | "ALL"`. -/
inductive TimePeriod where
  | w1 | m1 | m3 | m6 | y1 | all
deriving DecidableEq

/-- One `{gold, percent}` pair of the stats payload. -/
structure GoldPercent where
  gold : ℚ
  percent : ℚ
deriving DecidableEq

/-- Interface `PriceStats`. -/
structure PriceStats where
  price : ℚ
  per_day : GoldPercent
  per_week : GoldPercent
  per_month : GoldPercent
  per_year : GoldPercent
deriving DecidableEq

/-- Upstream stats pair whose fields may be absent (`undefined`/`null`). -/
structure RawGoldPercent where
  gold : Option ℚ
  percent : Option ℚ
deriving DecidableEq

/-- Upstream stats object whose fields may be absent. -/
structure RawPriceStats where
  price : Option ℚ
  per_day : Option RawGoldPercent
  per_week : Option RawGoldPercent
  per_month : Option RawGoldPercent
  per_year : Option RawGoldPercent
deriving DecidableEq

/-- Interface `ApiResponse`. -/
structure ApiResponse where
  data : List PriceData
  stats : PriceStats

/-- The impure ingredients of the page, passed explicitly: `Math.sin`,
`Math.cos`, ISO/locale date formatting of "today minus i days", the random
time-of-day strings drawn per loop iteration, and `Date.now()`. -/
structure JsEnv where
  sin : ℚ → ℚ
  cos : ℚ → ℚ
  isoDate : Nat → String
  localeDate : Nat → String
  randTime : Nat → String
  randHM : Nat → String
  todayMs : Nat

/-- `Number.parseFloat(x.toFixed(2))`: round to two decimals. -/
def round2 (x : ℚ) : ℚ := (⌊x * 100 + 1/2⌋ : ℚ) / 100

/-- Milliseconds per calendar day (the model's day-arithmetic unit). -/
def msPerDay : Nat := 86400000

/-- The `.map` step of `fetchItemStats`'s normalization: parse the point's
date string; on failure keep the point with the sentinel labels
`"Invalid date"` and timestamp `0`. -/
def normalizePoint (parseDate : String → Option DateInfo) (item : RawPoint) :
    PriceData :=
  match parseDate item.DateStr with
  | some d =>
      { purchase_price := item.purchase_price
        priceIsNaN := item.priceIsNaN
        Date := item.DateStr
        formattedDate := d.localeDate
        formattedTime := d.localeTime
        formattedDateTime := d.localeDate ++ " " ++ d.localeTime
        timestamp := d.timestamp }
  | none =>
      { purchase_price := item.purchase_price
        priceIsNaN := item.priceIsNaN
        Date := item.DateStr
        formattedDate := "Invalid date"
        formattedTime := ""
        formattedDateTime := "Invalid date"
        timestamp := 0 }

/-- `processedData` of `fetchItemStats`: normalize every raw point, drop the
points whose price is NaN, and stably sort ascending by timestamp. -/
def processData (parseDate : String → Option DateInfo) (raw : List RawPoint) :
    List PriceData :=
  List.insertionSort (fun a b => a.timestamp ≤ b.timestamp)
    (((raw.map (normalizePoint parseDate)).filter (fun q => !q.priceIsNaN)))

/-- `safeStats`: every numeric field defaults to 0 when absent. -/
def safeStats (s : Option RawPriceStats) : PriceStats :=
  let part : Option RawGoldPercent → GoldPercent := fun p =>
    { gold := ((p.bind (·.gold)).getD 0)
      percent := ((p.bind (·.percent)).getD 0) }
  { price := ((s.bind (·.price)).getD 0)
    per_day := part (s.bind (·.per_day))
    per_week := part (s.bind (·.per_week))
    per_month := part (s.bind (·.per_month))
    per_year := part (s.bind (·.per_year)) }

/-- `optimizeDataForDisplay`: identity when the series fits in the limit;
otherwise keep the first point, every `samplingRate`-th middle point, and the
last point.  `samplingRate = Math.ceil(length / limit)`; for `limit = 0` the
JS value is `Infinity`, modelled as `length` (no middle point qualifies). -/
def optimizeDataForDisplay (limit : Nat) (data : List PriceData) :
    List PriceData :=
  if data.length ≤ limit then data
  else
    let s := if limit = 0 then data.length else (data.length + limit - 1) / limit
    let middle :=
      (List.range data.length).filter
        (fun i => decide (s ≤ i) && decide (i % s = 0) && decide (i + s < data.length))
    data.take 1 ++ middle.filterMap (fun i => data.get? i) ++
      data.drop (data.length - 1)

/-- The window filter of `filterDataByPeriod`: keep points at or after the
period's cutoff, re-parsing the date string when `timestamp` is falsy (0);
`ALL` keeps everything.  `cutoffMs` abstracts the calendar arithmetic on
"now". -/
def windowFiltered (cutoffMs : TimePeriod → Nat)
    (parseDate : String → Option DateInfo) (data : List PriceData)
    (period : TimePeriod) : List PriceData :=
  match period with
  | .all => data
  | p =>
      data.filter (fun item =>
        if item.timestamp ≠ 0 then decide (cutoffMs p ≤ item.timestamp)
        else
          match parseDate item.Date with
          | some d => decide (cutoffMs p ≤ d.timestamp)
          | none => false)

/-- The `(filteredData, displayData)` pair produced by one call of
`filterDataByPeriod`. -/
structure FilterResult where
  filteredData : List PriceData
  displayData : List PriceData
deriving DecidableEq

/-- `filterDataByPeriod`.  For `ALL` the source sets the display data to the
unfiltered series directly (the `optimizeDataForDisplay` call is commented
out); for the other periods an empty filter result falls back to the whole
series, and the display data is the optimized final series. -/
def filterDataByPeriod (limit : Nat) (cutoffMs : TimePeriod → Nat)
    (parseDate : String → Option DateInfo) (data : List PriceData)
    (period : TimePeriod) : FilterResult :=
  if data.length = 0 then ⟨[], []⟩
  else
    match period with
    | .all => ⟨data, data⟩
    | p =>
        let filtered := windowFiltered cutoffMs parseDate data p
        let finalData := if filtered.length > 0 then filtered else data
        ⟨finalData, optimizeDataForDisplay limit finalData⟩

/-- `handleZoomIn` acting on the zoom domain, as a function of the filtered
series' length.  Indices use `Math.floor`; the `Math.max(0, ·)` clamp
coincides with truncated `Nat` subtraction. -/
def handleZoomIn (filteredLength : Nat) (zoom : Option (Nat × Nat)) :
    Option (Nat × Nat) :=
  if filteredLength = 0 then zoom
  else
    match zoom with
    | none => some (filteredLength / 4, 3 * filteredLength / 4)
    | some (a, b) =>
        let currentRange := b - a
        let newRange := max 10 (3 * currentRange / 4)
        let midPoint := (a + b) / 2
        let halfNewRange := newRange / 2
        some (midPoint - halfNewRange,
              min (filteredLength - 1) (midPoint + halfNewRange))

/-- `handleZoomOut` acting on the zoom domain. -/
def handleZoomOut (filteredLength : Nat) (zoom : Option (Nat × Nat)) :
    Option (Nat × Nat) :=
  match zoom with
  | none => none
  | some (a, b) =>
      if filteredLength = 0 then some (a, b)
      else
        let currentRange := b - a
        let newRange := min filteredLength (2 * currentRange)
        let midPoint := (a + b) / 2
        let halfNewRange := newRange / 2
        let lo := midPoint - halfNewRange
        let hi := min (filteredLength - 1) (midPoint + halfNewRange)
        if lo ≤ 5 ∧ filteredLength - 5 ≤ hi then none
        else some (lo, hi)

/-- The `chartData` memo: without zoom show the display data; with zoom
slice the filtered series, down-sampling only when the index span reaches
the display limit. -/
def chartData (zoom : Option (Nat × Nat)) (filteredData displayData : List PriceData)
    (limit : Nat) : List PriceData :=
  match zoom with
  | none => displayData
  | some (s, e) =>
      if filteredData.length = 0 then displayData
      else if e - s < limit then (filteredData.drop s).take (e + 1 - s)
      else optimizeDataForDisplay limit ((filteredData.drop s).take (e + 1 - s))

/-- `Math.min(...)` over the mapped prices (the arguments are nonempty at
every call site; `0` stands for the unreachable empty case). -/
def listMin : List ℚ → ℚ
  | [] => 0
  | x :: xs => xs.foldl min x

/-- `Math.max(...)` over the mapped prices. -/
def listMax : List ℚ → ℚ
  | [] => 0
  | x :: xs => xs.foldl max x

/-- The `{minPrice, maxPrice, avgPrice}` memo over the filtered series. -/
structure PriceAggregates where
  minPrice : ℚ
  maxPrice : ℚ
  avgPrice : ℚ
deriving DecidableEq

/-- The `useMemo` computing min/max with the fixed 2% buffer and the
arithmetic mean, all over the filtered (pre-zoom) series. -/
def priceAggregates (filteredData : List PriceData) : PriceAggregates :=
  if filteredData.length = 0 then ⟨0, 0, 0⟩
  else
    let prices := filteredData.map (·.purchase_price)
    { minPrice := listMin prices * (98 / 100)
      maxPrice := listMax prices * (102 / 100)
      avgPrice := prices.foldl (· + ·) 0 / prices.length }

/-- The volatility figure rendered in the statistics panel:
`avgPrice ? ((maxPrice - minPrice) / avgPrice) * 100 : 0`. -/
def volatility (agg : PriceAggregates) : ℚ :=
  if agg.avgPrice ≠ 0 then (agg.maxPrice - agg.minPrice) / agg.avgPrice * 100
  else 0

/-- One iteration of `generateMockData`'s loop at `i` days before today. -/
def mockPricePoint (env : JsEnv) (basePrice : ℚ) (i : Nat) : PriceData :=
  let dayFactor := env.sin ((i : ℚ) / 30) * 20
  let randomFactor := env.sin (i : ℚ) * 10 + env.cos ((i : ℚ) * 2) * 5
  let trendFactor := ((i : ℚ) / 365) * 50
  { purchase_price := round2 (basePrice + dayFactor + randomFactor + trendFactor)
    priceIsNaN := false
    Date := env.isoDate i ++ " " ++ env.randTime i
    formattedDate := env.localeDate i
    formattedTime := env.randHM i
    formattedDateTime := env.localeDate i ++ " " ++ env.randHM i
    timestamp := env.todayMs - i * msPerDay }

/-- `x || fallback` for a JS number `x` (0 is falsy). -/
def jsOr (x fallback : ℚ) : ℚ := if x = 0 then fallback else x

/-- The stats block `generateMockData` derives from its own series:
deltas of the last price against points 1, 6, 29 and 365 entries back. -/
def computeMockStats (data : List PriceData) : PriceStats :=
  let priceAt : Nat → ℚ := fun idx =>
    ((data.get? idx).map (·.purchase_price)).getD 0
  let currentPrice := priceAt (data.length - 1)
  let yesterdayPrice := jsOr (priceAt (data.length - 2)) currentPrice
  let weekAgoPrice := jsOr (priceAt (data.length - 7)) currentPrice
  let monthAgoPrice := jsOr (priceAt (data.length - 30)) currentPrice
  let yearAgoPrice := jsOr (priceAt 0) currentPrice
  let dayChange := currentPrice - yesterdayPrice
  let weekChange := currentPrice - weekAgoPrice
  let monthChange := currentPrice - monthAgoPrice
  let yearChange := currentPrice - yearAgoPrice
  { price := currentPrice
    per_day := ⟨round2 dayChange, round2 (dayChange / yesterdayPrice * 100)⟩
    per_week := ⟨round2 weekChange, round2 (weekChange / weekAgoPrice * 100)⟩
    per_month := ⟨round2 monthChange, round2 (monthChange / monthAgoPrice * 100)⟩
    per_year := ⟨round2 yearChange, round2 (yearChange / yearAgoPrice * 100)⟩ }

/-- `generateMockData`: deterministic base price from the name's character
codes, then one point per day for `i = 365` down to `0` (366 points), with
stats computed from the generated series itself. -/
def generateMockData (env : JsEnv) (name : String) : ApiResponse :=
  let nameSum := (name.toList.map Char.toNat).sum
  let basePrice : ℚ := 200 + ((nameSum % 300 : Nat) : ℚ)
  let data := (List.range 366).map (fun k => mockPricePoint env basePrice (365 - k))
  { data := data, stats := computeMockStats data }

/-- The outcome of the upstream price request as seen by `fetchItemStats`
after the response guards: every throwing path (network/timeout failure,
non-2xx status, empty body, JSON parse failure, invalid shape) funnels into
the `catch` with a message; otherwise the parsed `{data, stats}` payload. -/
inductive FetchInput where
  | fetchFailure (msg : String)
  | success (data : List RawPoint) (stats : Option RawPriceStats)

/-- The component state fields written by one run of `fetchItemStats`. -/
structure FetchState where
  isLoading : Bool
  error : Option String
  showNoDataMessage : Bool
  priceData : List PriceData
  filteredData : List PriceData
  displayData : List PriceData
  stats : Option PriceStats

/-- One run of `fetchItemStats` as a state transformer: the try block resets
`error` and `showNoDataMessage`, then either installs processed upstream
data, or falls back to mock data with `showNoDataMessage` (empty upstream
data / all points dropped) or with `error` set (any throwing path). -/
def fetchItemStats (env : JsEnv) (parseDate : String → Option DateInfo)
    (cutoffMs : TimePeriod → Nat) (limit : Nat) (itemName : String)
    (selectedPeriod : TimePeriod) (input : FetchInput) : FetchState :=
  match input with
  | .fetchFailure msg =>
      let mock := generateMockData env itemName
      let fr := filterDataByPeriod limit cutoffMs parseDate mock.data selectedPeriod
      { isLoading := false
        error := some msg
        showNoDataMessage := false
        priceData := mock.data
        filteredData := fr.filteredData
        displayData := fr.displayData
        stats := some mock.stats }
  | .success rawData rawStats =>
      if rawData.length = 0 then
        let mock := generateMockData env itemName
        let fr := filterDataByPeriod limit cutoffMs parseDate mock.data selectedPeriod
        { isLoading := false
          error := none
          showNoDataMessage := true
          priceData := mock.data
          filteredData := fr.filteredData
          displayData := fr.displayData
          stats := some mock.stats }
      else
        let processedData := processData parseDate rawData
        if processedData.length = 0 then
          let mock := generateMockData env itemName
          let fr := filterDataByPeriod limit cutoffMs parseDate mock.data selectedPeriod
          { isLoading := false
            error := none
            showNoDataMessage := true
            priceData := mock.data
            filteredData := fr.filteredData
            displayData := fr.displayData
            stats := some mock.stats }
        else
          let fr := filterDataByPeriod limit cutoffMs parseDate processedData selectedPeriod
          { isLoading := false
            error := none
            showNoDataMessage := false
            priceData := processedData
            filteredData := fr.filteredData
            displayData := fr.displayData
            stats := some (safeStats rawStats) }

/-- Outcome of the proxy route's upstream fetch: a thrown failure
(network/timeout/body-parse), or a response with its status and body text. -/
inductive Upstream where
  | fetchError (msg : String)
  | response (status : Nat) (bodyText : String)

/-- The `details` value of an error envelope: either upstream text parsed as
JSON, or the `{message: errorText}` wrapper used when it is not JSON. -/
inductive Details where
  | json (s : String)
  | message (s : String)
deriving DecidableEq

/-- The JSON response produced by a proxy route handler: its HTTP status,
the `error`/`details`/`responseText` fields of an error envelope, or the
passthrough `body` on success. -/
structure RouteResult where
  status : Nat
  error : Option String
  details : Option Details
  responseText : Option String
  body : Option String
deriving DecidableEq

/-- `response.ok` for a fetch response status. -/
def statusOk (status : Nat) : Bool := decide (200 ≤ status) && decide (status < 300)

/-- The `GET` handler of `src/app/api/types/route.ts`; `jsonOk` abstracts
whether `JSON.parse` succeeds on a body text. -/
def typesGET (jsonOk : String → Bool) (u : Upstream) : RouteResult :=
  match u with
  | .fetchError msg =>
      { status := 500
        error := some "Failed to fetch types from external API"
        details := some (.message msg)
        responseText := none
        body := none }
  | .response status text =>
      if !statusOk status then
        { status := status
          error := some ("API responded with status: " ++ toString status)
          details := none
          responseText := none
          body := none }
      else if jsonOk text then
        { status := 200, error := none, details := none, responseText := none
          body := some text }
      else
        { status := 500
          error := some "Invalid JSON response from server"
          details := none
          responseText := some (text.take 100)
          body := none }

/-- The `POST` handler of `src/app/api/types/route.ts`. -/
def typesPOST (jsonOk : String → Bool) (u : Upstream) : RouteResult :=
  match u with
  | .fetchError msg =>
      { status := 500
        error := some "Failed to create type"
        details := some (.message msg)
        responseText := none
        body := none }
  | .response status text =>
      if !statusOk status then
        { status := status
          error := some ("API Error: " ++ toString status)
          details := some (if jsonOk text then .json text else .message text)
          responseText := none
          body := none }
      else if jsonOk text then
        { status := 200, error := none, details := none, responseText := none
          body := some text }
      else
        { status := 500
          error := some "Invalid JSON response from server"
          details := none
          responseText := none
          body := none }

/-- A concrete environment used by the closed instances below. -/
def envZero : JsEnv :=
  { sin := fun _ => 0
    cos := fun _ => 0
    isoDate := fun _ => "2024-01-01"
    localeDate := fun _ => "1/1/2024"
    randTime := fun _ => "00:00:00"
    randHM := fun _ => "00:00"
    todayMs := 1700000000000 }

/-- A date parser that fails on every string. -/
def parseDateNone : String → Option DateInfo := fun _ => none

/-- A cutoff function mapping every period to instant 0. -/
def cutoffZero : TimePeriod → Nat := fun _ => 0

/-- A small concrete point used by the closed instances below. -/
def samplePoint (p : ℚ) (ts : Nat) : PriceData :=
  { purchase_price := p, priceIsNaN := false, Date := "2024-01-01"
    formattedDate := "1/1/2024", formattedTime := "00:00"
    formattedDateTime := "1/1/2024 00:00", timestamp := ts }
/-- `optimizeDataForDisplay` is the identity when the series fits within the
display limit. -/
theorem optimizeDataForDisplay_of_le (limit : Nat) (data : List PriceData)
    (h : data.length ≤ limit) : optimizeDataForDisplay limit data = data := by
  rw [optimizeDataForDisplay, if_pos h]

/-- C4: for every series and every display limit strictly below its length,
the down-sampled output still contains the first and the last point. -/
theorem optimizeDataForDisplay_keeps_endpoints (S : List PriceData) (L : Nat)
    (h : L < S.length) :
    ∃ x y, S.head? = some x ∧ S.getLast? = some y ∧
      x ∈ optimizeDataForDisplay L S ∧ y ∈ optimizeDataForDisplay L S := by
  have hpos : 0 < S.length := Nat.lt_of_le_of_lt (Nat.zero_le L) h
  have hlt : S.length - 1 < S.length := by omega
  refine ⟨S[0], S[S.length - 1], ?_, ?_, ?_, ?_⟩
  · rw [List.head?_eq_getElem?, List.getElem?_eq_getElem hpos]
  · rw [List.getLast?_eq_getElem?, List.getElem?_eq_getElem hlt]
  · rw [optimizeDataForDisplay, if_neg (by omega)]
    refine List.mem_append_left _ (List.mem_append_left _ ?_)
    rw [List.take_one, List.head?_eq_getElem?, List.getElem?_eq_getElem hpos]
    exact List.mem_singleton_self _
  · rw [optimizeDataForDisplay, if_neg (by omega)]
    refine List.mem_append_right _ ?_
    rw [List.drop_eq_getElem_cons hlt]
    exact List.mem_cons_self _ _

/-- C4 witness: a three-point series with display limit 1 keeps its first
and last point. -/
theorem optimizeDataForDisplay_keeps_endpoints_witness :
    1 < ([samplePoint 1 1, samplePoint 2 2, samplePoint 3 3] : List PriceData).length ∧
    ∃ x y, ([samplePoint 1 1, samplePoint 2 2, samplePoint 3 3] : List PriceData).head? = some x ∧
      ([samplePoint 1 1, samplePoint 2 2, samplePoint 3 3] : List PriceData).getLast? = some y ∧
      x ∈ optimizeDataForDisplay 1 [samplePoint 1 1, samplePoint 2 2, samplePoint 3 3] ∧
      y ∈ optimizeDataForDisplay 1 [samplePoint 1 1, samplePoint 2 2, samplePoint 3 3] :=
  ⟨by decide,
   optimizeDataForDisplay_keeps_endpoints [samplePoint 1 1, samplePoint 2 2, samplePoint 3 3] 1
     (by decide)⟩
/-- Evaluation of `filterDataByPeriod` at the ALL period on a non-empty
series. -/
theorem filterDataByPeriod_all_eq (limit : Nat) (cutoffMs : TimePeriod → Nat)
    (parseDate : String → Option DateInfo) (data : List PriceData)
    (hne : data ≠ []) :
    filterDataByPeriod limit cutoffMs parseDate data .all = ⟨data, data⟩ := by
  have hl : ¬ data.length = 0 := by simpa using hne
  simp only [filterDataByPeriod, if_neg hl]

/-- Evaluation of `filterDataByPeriod` at a dated period on a non-empty
series. -/
theorem filterDataByPeriod_period_eq (limit : Nat) (cutoffMs : TimePeriod → Nat)
    (parseDate : String → Option DateInfo) (data : List PriceData)
    (p : TimePeriod) (hne : data ≠ []) (hp : p ≠ .all) :
    filterDataByPeriod limit cutoffMs parseDate data p =
      ⟨(if (windowFiltered cutoffMs parseDate data p).length > 0
          then windowFiltered cutoffMs parseDate data p else data),
        optimizeDataForDisplay limit
          (if (windowFiltered cutoffMs parseDate data p).length > 0
            then windowFiltered cutoffMs parseDate data p else data)⟩ := by
  have hl : ¬ data.length = 0 := by simpa using hne
  cases p with
  | all => exact absurd rfl hp
  | w1 => simp only [filterDataByPeriod, if_neg hl]
  | m1 => simp only [filterDataByPeriod, if_neg hl]
  | m3 => simp only [filterDataByPeriod, if_neg hl]
  | m6 => simp only [filterDataByPeriod, if_neg hl]
  | y1 => simp only [filterDataByPeriod, if_neg hl]

/-- C1 (amended): for the five dated windows the display series is the
filtered series run through the stride down-sampler (hence unchanged when it
fits the limit); for the ALL window the source skips `optimizeDataForDisplay`
and hands the full series to the renderer unchanged. -/
theorem filterDataByPeriod_display_rule (limit : Nat) (cutoffMs : TimePeriod → Nat)
    (parseDate : String → Option DateInfo) (data : List PriceData)
    (period : TimePeriod) (hne : data ≠ []) :
    (period ≠ .all →
      (filterDataByPeriod limit cutoffMs parseDate data period).displayData =
        optimizeDataForDisplay limit
          (filterDataByPeriod limit cutoffMs parseDate data period).filteredData ∧
      ((filterDataByPeriod limit cutoffMs parseDate data period).filteredData.length ≤ limit →
        (filterDataByPeriod limit cutoffMs parseDate data period).displayData =
          (filterDataByPeriod limit cutoffMs parseDate data period).filteredData)) ∧
    (period = .all →
      (filterDataByPeriod limit cutoffMs parseDate data period).filteredData = data ∧
      (filterDataByPeriod limit cutoffMs parseDate data period).displayData = data) := by
  refine ⟨fun hp => ?_, fun hp => ?_⟩
  · rw [filterDataByPeriod_period_eq limit cutoffMs parseDate data period hne hp]
    exact ⟨rfl, fun hfit => optimizeDataForDisplay_of_le _ _ hfit⟩
  · subst hp
    rw [filterDataByPeriod_all_eq limit cutoffMs parseDate data hne]
    exact ⟨rfl, rfl⟩

/-- C1 counterexample: with the ALL window and display limit 1, a
three-point series whose length exceeds the limit is handed to the renderer
unchanged, not down-sampled. -/
theorem filterDataByPeriod_all_skips_downsampling :
    1 < (filterDataByPeriod 1 cutoffZero parseDateNone
          [samplePoint 1 10, samplePoint 2 20, samplePoint 3 30]
          .all).filteredData.length ∧
    (filterDataByPeriod 1 cutoffZero parseDateNone
        [samplePoint 1 10, samplePoint 2 20, samplePoint 3 30] .all).displayData ≠
      optimizeDataForDisplay 1
        (filterDataByPeriod 1 cutoffZero parseDateNone
          [samplePoint 1 10, samplePoint 2 20, samplePoint 3 30] .all).filteredData := by
  decide

/-- C1 witness: a dated window with a series that exceeds the limit goes
through the down-sampler. -/
theorem filterDataByPeriod_display_rule_witness :
    ([samplePoint 1 10, samplePoint 2 20, samplePoint 3 30] : List PriceData) ≠ [] ∧
    ((TimePeriod.w1 ≠ .all →
      (filterDataByPeriod 1 cutoffZero parseDateNone
          [samplePoint 1 10, samplePoint 2 20, samplePoint 3 30] .w1).displayData =
        optimizeDataForDisplay 1
          (filterDataByPeriod 1 cutoffZero parseDateNone
            [samplePoint 1 10, samplePoint 2 20, samplePoint 3 30] .w1).filteredData ∧
      ((filterDataByPeriod 1 cutoffZero parseDateNone
          [samplePoint 1 10, samplePoint 2 20, samplePoint 3 30] .w1).filteredData.length ≤ 1 →
        (filterDataByPeriod 1 cutoffZero parseDateNone
            [samplePoint 1 10, samplePoint 2 20, samplePoint 3 30] .w1).displayData =
          (filterDataByPeriod 1 cutoffZero parseDateNone
            [samplePoint 1 10, samplePoint 2 20, samplePoint 3 30] .w1).filteredData)) ∧
    (TimePeriod.w1 = .all →
      (filterDataByPeriod 1 cutoffZero parseDateNone
          [samplePoint 1 10, samplePoint 2 20, samplePoint 3 30] .w1).filteredData =
        [samplePoint 1 10, samplePoint 2 20, samplePoint 3 30] ∧
      (filterDataByPeriod 1 cutoffZero parseDateNone
          [samplePoint 1 10, samplePoint 2 20, samplePoint 3 30] .w1).displayData =
        [samplePoint 1 10, samplePoint 2 20, samplePoint 3 30])) :=
  ⟨by decide,
   filterDataByPeriod_display_rule 1 cutoffZero parseDateNone
     [samplePoint 1 10, samplePoint 2 20, samplePoint 3 30] .w1 (by decide)⟩

/-- C3: for a non-empty series the filtered result is never empty, and an
empty window-filter outcome falls back to the entire unfiltered series. -/
theorem filterDataByPeriod_empty_fallback (limit : Nat) (cutoffMs : TimePeriod → Nat)
    (parseDate : String → Option DateInfo) (S : List PriceData)
    (period : TimePeriod) (hne : S ≠ []) :
    (filterDataByPeriod limit cutoffMs parseDate S period).filteredData ≠ [] ∧
    (windowFiltered cutoffMs parseDate S period = [] →
      (filterDataByPeriod limit cutoffMs parseDate S period).filteredData = S) := by
  by_cases hp : period = TimePeriod.all
  · subst hp
    rw [filterDataByPeriod_all_eq limit cutoffMs parseDate S hne]
    exact ⟨hne, fun _ => rfl⟩
  · rw [filterDataByPeriod_period_eq limit cutoffMs parseDate S period hne hp]
    by_cases hf : (windowFiltered cutoffMs parseDate S period).length > 0
    · refine ⟨?_, fun hemp => ?_⟩
      · rw [if_pos hf]
        exact List.length_pos.mp hf
      · rw [hemp] at hf
        simp at hf
    · rw [if_neg hf]
      exact ⟨hne, fun _ => rfl⟩

/-- C3 witness: a one-point series far before the cutoff filters to empty
and falls back to the whole series. -/
theorem filterDataByPeriod_empty_fallback_witness :
    ([samplePoint 5 10] : List PriceData) ≠ [] ∧
    (filterDataByPeriod 1000 (fun _ => 999999) parseDateNone [samplePoint 5 10]
        .m1).filteredData ≠ [] ∧
    (windowFiltered (fun _ => 999999) parseDateNone [samplePoint 5 10] .m1 = [] →
      (filterDataByPeriod 1000 (fun _ => 999999) parseDateNone [samplePoint 5 10]
          .m1).filteredData = [samplePoint 5 10]) :=
  ⟨by decide,
   filterDataByPeriod_empty_fallback 1000 (fun _ => 999999) parseDateNone
     [samplePoint 5 10] .m1 (by decide)⟩
/-- C5: with an active zoom whose index span stays below the display limit,
the chart data is exactly the filtered points of that index span — exactly
`end - start + 1` of them, with no down-sampling. -/
theorem chartData_zoom_detail (filteredData displayData : List PriceData)
    (limit s e : Nat) (hse : s ≤ e) (hlen : e < filteredData.length)
    (hspan : e - s < limit) :
    (chartData (some (s, e)) filteredData displayData limit).length = e - s + 1 ∧
    ∀ i, i < e - s + 1 →
      (chartData (some (s, e)) filteredData displayData limit)[i]? =
        filteredData[s + i]? := by
  have hne : ¬ filteredData.length = 0 := by omega
  have hcd : chartData (some (s, e)) filteredData displayData limit =
      (filteredData.drop s).take (e + 1 - s) := by
    simp only [chartData, if_neg hne, if_pos hspan]
  rw [hcd]
  constructor
  · rw [List.length_take, List.length_drop]
    omega
  · intro i hi
    rw [List.getElem?_take, if_pos (show i < e + 1 - s by omega),
      List.getElem?_drop]

/-- C5 witness: the spec's scenario — zoom [400, 420] over a 500-point
filtered series with display limit 1000 yields exactly 21 points, namely the
raw slice. -/
theorem chartData_zoom_detail_witness :
    (400 ≤ 420 ∧ 420 < (List.replicate 500 (samplePoint 1 0)).length ∧
      420 - 400 < 1000) ∧
    (chartData (some (400, 420)) (List.replicate 500 (samplePoint 1 0)) []
        1000).length = 420 - 400 + 1 ∧
    ∀ i, i < 420 - 400 + 1 →
      (chartData (some (400, 420)) (List.replicate 500 (samplePoint 1 0)) []
          1000)[i]? = (List.replicate 500 (samplePoint 1 0))[400 + i]? :=
  have h2 : 420 < (List.replicate 500 (samplePoint 1 0) : List PriceData).length := by
    rw [List.length_replicate]; omega
  ⟨⟨by omega, h2, by omega⟩,
   chartData_zoom_detail (List.replicate 500 (samplePoint 1 0)) [] 1000 400 420
     (by omega) h2 (by omega)⟩

/-- The invariant C10 claims for the zoom indices over a filtered series of
length `n`. -/
def zoomInvariant (n : Nat) (zoom : Option (Nat × Nat)) : Prop :=
  match zoom with
  | none => True
  | some (s, e) => s ≤ e ∧ e ≤ n - 1

/-- C10: starting from no zoom or any in-bounds zoom range over a non-empty
filtered series, both zoom-in and zoom-out leave the zoom indices within the
bounds of the filtered series. -/
theorem zoom_handlers_preserve_bounds (n : Nat) (zoom : Option (Nat × Nat))
    (hn : 1 ≤ n) (hz : zoomInvariant n zoom) :
    zoomInvariant n (handleZoomIn n zoom) ∧
    zoomInvariant n (handleZoomOut n zoom) := by
  have hn0 : ¬ n = 0 := by omega
  cases zoom with
  | none =>
      constructor
      · simp only [handleZoomIn, if_neg hn0, zoomInvariant]
        omega
      · simp only [handleZoomOut, zoomInvariant]
  | some ab =>
      obtain ⟨a, b⟩ := ab
      obtain ⟨hab, hbn⟩ := hz
      constructor
      · simp only [handleZoomIn, if_neg hn0, zoomInvariant]
        omega
      · simp only [handleZoomOut, if_neg hn0]
        split
        · simp only [zoomInvariant]
        · simp only [zoomInvariant]
          omega

/-- C10 witness: a 100-point filtered series with zoom range [20, 60]. -/
theorem zoom_handlers_preserve_bounds_witness :
    (1 ≤ 100 ∧ zoomInvariant 100 (some (20, 60))) ∧
    zoomInvariant 100 (handleZoomIn 100 (some (20, 60))) ∧
    zoomInvariant 100 (handleZoomOut 100 (some (20, 60))) :=
  have hz : zoomInvariant 100 (some (20, 60)) := ⟨by omega, by omega⟩
  ⟨⟨by omega, hz⟩, zoom_handlers_preserve_bounds 100 (some (20, 60)) (by omega) hz⟩
/-- The left fold of `min` over a list lands on the seed or a member, is
bounded by the seed, and bounds every member. -/
theorem foldl_min_spec (xs : List ℚ) (a : ℚ) :
    (xs.foldl min a = a ∨ xs.foldl min a ∈ xs) ∧
      xs.foldl min a ≤ a ∧ ∀ y ∈ xs, xs.foldl min a ≤ y := by
  induction xs generalizing a with
  | nil => simp
  | cons x xs ih =>
      obtain ⟨hmem, hle, hall⟩ := ih (min a x)
      simp only [List.foldl_cons]
      refine ⟨?_, ?_, ?_⟩
      · rcases hmem with h | h
        · rcases min_choice a x with hc | hc
          · left; rw [h, hc]
          · right; rw [h, hc]; exact List.mem_cons_self x xs
        · right; exact List.mem_cons_of_mem x h
      · exact le_trans hle (min_le_left a x)
      · intro y hy
        rcases List.mem_cons.mp hy with rfl | hy
        · exact le_trans hle (min_le_right a y)
        · exact hall y hy

/-- The left fold of `max` over a list lands on the seed or a member, is
bounded below by the seed, and dominates every member. -/
theorem foldl_max_spec (xs : List ℚ) (a : ℚ) :
    (xs.foldl max a = a ∨ xs.foldl max a ∈ xs) ∧
      a ≤ xs.foldl max a ∧ ∀ y ∈ xs, y ≤ xs.foldl max a := by
  induction xs generalizing a with
  | nil => simp
  | cons x xs ih =>
      obtain ⟨hmem, hle, hall⟩ := ih (max a x)
      simp only [List.foldl_cons]
      refine ⟨?_, ?_, ?_⟩
      · rcases hmem with h | h
        · rcases max_choice a x with hc | hc
          · left; rw [h, hc]
          · right; rw [h, hc]; exact List.mem_cons_self x xs
        · right; exact List.mem_cons_of_mem x h
      · exact le_trans (le_max_left a x) hle
      · intro y hy
        rcases List.mem_cons.mp hy with rfl | hy
        · exact le_trans (le_max_right a y) hle
        · exact hall y hy

/-- `listMin` of a non-empty list is a member and a lower bound. -/
theorem listMin_spec (l : List ℚ) (h : l ≠ []) :
    listMin l ∈ l ∧ ∀ y ∈ l, listMin l ≤ y := by
  cases l with
  | nil => exact absurd rfl h
  | cons x xs =>
      obtain ⟨hmem, hle, hall⟩ := foldl_min_spec xs x
      refine ⟨?_, ?_⟩
      · rcases hmem with h' | h'
        · rw [listMin, h']; exact List.mem_cons_self x xs
        · rw [listMin]; exact List.mem_cons_of_mem x h'
      · intro y hy
        rcases List.mem_cons.mp hy with rfl | hy
        · exact hle
        · exact hall y hy

/-- `listMax` of a non-empty list is a member and an upper bound. -/
theorem listMax_spec (l : List ℚ) (h : l ≠ []) :
    listMax l ∈ l ∧ ∀ y ∈ l, y ≤ listMax l := by
  cases l with
  | nil => exact absurd rfl h
  | cons x xs =>
      obtain ⟨hmem, hle, hall⟩ := foldl_max_spec xs x
      refine ⟨?_, ?_⟩
      · rcases hmem with h' | h'
        · rw [listMax, h']; exact List.mem_cons_self x xs
        · rw [listMax]; exact List.mem_cons_of_mem x h'
      · intro y hy
        rcases List.mem_cons.mp hy with rfl | hy
        · exact hle
        · exact hall y hy

/-- C8: over the filtered (pre-zoom) series, the displayed minimum is 0.98
times the least price, the maximum 1.02 times the greatest price, the
average the arithmetic mean, and the volatility figure is
`(max - min) / avg * 100` computed from the buffered extremes. -/
theorem priceAggregates_spec (filteredData : List PriceData)
    (h : filteredData ≠ []) :
    (∃ m ∈ filteredData.map (·.purchase_price),
        (∀ y ∈ filteredData.map (·.purchase_price), m ≤ y) ∧
        (priceAggregates filteredData).minPrice = 98 / 100 * m) ∧
    (∃ M ∈ filteredData.map (·.purchase_price),
        (∀ y ∈ filteredData.map (·.purchase_price), y ≤ M) ∧
        (priceAggregates filteredData).maxPrice = 102 / 100 * M) ∧
    (priceAggregates filteredData).avgPrice =
      (filteredData.map (·.purchase_price)).sum / filteredData.length ∧
    ((priceAggregates filteredData).avgPrice ≠ 0 →
      volatility (priceAggregates filteredData) =
        ((priceAggregates filteredData).maxPrice -
          (priceAggregates filteredData).minPrice) /
          (priceAggregates filteredData).avgPrice * 100) := by
  have hl : ¬ filteredData.length = 0 := by simpa using h
  have hmapne : filteredData.map (·.purchase_price) ≠ [] := by
    simpa using h
  have hagg : priceAggregates filteredData =
      { minPrice := listMin (filteredData.map (·.purchase_price)) * (98 / 100)
        maxPrice := listMax (filteredData.map (·.purchase_price)) * (102 / 100)
        avgPrice := (filteredData.map (·.purchase_price)).foldl (· + ·) 0 /
          (filteredData.map (·.purchase_price)).length } := by
    rw [priceAggregates, if_neg hl]
  obtain ⟨hminmem, hminle⟩ := listMin_spec _ hmapne
  obtain ⟨hmaxmem, hmaxle⟩ := listMax_spec _ hmapne
  refine ⟨⟨listMin (filteredData.map (·.purchase_price)), hminmem, hminle, ?_⟩,
    ⟨listMax (filteredData.map (·.purchase_price)), hmaxmem, hmaxle, ?_⟩, ?_, ?_⟩
  · rw [hagg]; ring
  · rw [hagg]; ring
  · rw [hagg]
    simp only [List.length_map]
    rw [← List.sum_eq_foldl]
  · intro hav
    rw [volatility, if_pos hav]

/-- C8 witness: a concrete two-point filtered series. -/
theorem priceAggregates_spec_witness :
    ([samplePoint 10 1, samplePoint 20 2] : List PriceData) ≠ [] ∧
    ((∃ m ∈ ([samplePoint 10 1, samplePoint 20 2] : List PriceData).map (·.purchase_price),
        (∀ y ∈ ([samplePoint 10 1, samplePoint 20 2] : List PriceData).map (·.purchase_price), m ≤ y) ∧
        (priceAggregates [samplePoint 10 1, samplePoint 20 2]).minPrice = 98 / 100 * m) ∧
    (∃ M ∈ ([samplePoint 10 1, samplePoint 20 2] : List PriceData).map (·.purchase_price),
        (∀ y ∈ ([samplePoint 10 1, samplePoint 20 2] : List PriceData).map (·.purchase_price), y ≤ M) ∧
        (priceAggregates [samplePoint 10 1, samplePoint 20 2]).maxPrice = 102 / 100 * M) ∧
    (priceAggregates [samplePoint 10 1, samplePoint 20 2]).avgPrice =
      (([samplePoint 10 1, samplePoint 20 2] : List PriceData).map (·.purchase_price)).sum /
        ([samplePoint 10 1, samplePoint 20 2] : List PriceData).length ∧
    ((priceAggregates [samplePoint 10 1, samplePoint 20 2]).avgPrice ≠ 0 →
      volatility (priceAggregates [samplePoint 10 1, samplePoint 20 2]) =
        ((priceAggregates [samplePoint 10 1, samplePoint 20 2]).maxPrice -
          (priceAggregates [samplePoint 10 1, samplePoint 20 2]).minPrice) /
          (priceAggregates [samplePoint 10 1, samplePoint 20 2]).avgPrice * 100)) :=
  ⟨by decide, priceAggregates_spec [samplePoint 10 1, samplePoint 20 2] (by decide)⟩
/-- Membership in the processed series coincides with membership in the
normalized-and-filtered list (the sort is a permutation). -/
theorem mem_processData (parseDate : String → Option DateInfo)
    (raw : List RawPoint) (q : PriceData) :
    q ∈ processData parseDate raw ↔
      q ∈ (raw.map (normalizePoint parseDate)).filter (fun r => !r.priceIsNaN) := by
  exact (List.perm_insertionSort _ _).mem_iff

/-- C2: during normalization a raw point whose date string fails to parse is
kept (provided its price is numeric) with the sentinel label
`"Invalid date"` and timestamp 0, while every point whose price fails
numeric validation is dropped from the series. -/
theorem processData_invalid_date_kept (parseDate : String → Option DateInfo)
    (raw : List RawPoint) (p : RawPoint) (hp : p ∈ raw)
    (hd : parseDate p.DateStr = none) (hn : p.priceIsNaN = false) :
    (∃ q ∈ processData parseDate raw,
        q.Date = p.DateStr ∧ q.purchase_price = p.purchase_price ∧
        q.formattedDate = "Invalid date" ∧ q.formattedDateTime = "Invalid date" ∧
        q.timestamp = 0) ∧
    ∀ q ∈ processData parseDate raw, q.priceIsNaN = false := by
  constructor
  · refine ⟨normalizePoint parseDate p, ?_, ?_⟩
    · rw [mem_processData]
      refine List.mem_filter.mpr ⟨List.mem_map_of_mem _ hp, ?_⟩
      simp only [normalizePoint, hd, hn, Bool.not_false]
    · simp [normalizePoint, hd]
  · intro q hq
    have := (List.mem_filter.mp ((mem_processData parseDate raw q).mp hq)).2
    simpa using this

/-- C2 witness: a single raw point with an unparsable date and a numeric
price survives normalization with the sentinel fields; no NaN-priced point
survives. -/
theorem processData_invalid_date_kept_witness :
    ((⟨5, false, "not-a-date"⟩ : RawPoint) ∈ [(⟨5, false, "not-a-date"⟩ : RawPoint)] ∧
      parseDateNone (⟨5, false, "not-a-date"⟩ : RawPoint).DateStr = none ∧
      (⟨5, false, "not-a-date"⟩ : RawPoint).priceIsNaN = false) ∧
    (∃ q ∈ processData parseDateNone [⟨5, false, "not-a-date"⟩],
        q.Date = (⟨5, false, "not-a-date"⟩ : RawPoint).DateStr ∧
        q.purchase_price = (⟨5, false, "not-a-date"⟩ : RawPoint).purchase_price ∧
        q.formattedDate = "Invalid date" ∧ q.formattedDateTime = "Invalid date" ∧
        q.timestamp = 0) ∧
    ∀ q ∈ processData parseDateNone [⟨5, false, "not-a-date"⟩], q.priceIsNaN = false :=
  ⟨⟨List.mem_singleton_self _, rfl, rfl⟩,
   processData_invalid_date_kept parseDateNone [⟨5, false, "not-a-date"⟩]
     ⟨5, false, "not-a-date"⟩ (List.mem_singleton_self _) rfl rfl⟩

/-- The synthetic series always has exactly 366 points. -/
theorem generateMockData_length (env : JsEnv) (name : String) :
    (generateMockData env name).data.length = 366 := by
  simp [generateMockData]

/-- C6: an upstream response whose `data` array is present but empty is not
an error: no error is recorded, the "no data" signal is raised, and a
populated synthetic series with synthetic stats is installed. -/
theorem fetchItemStats_empty_data (env : JsEnv)
    (parseDate : String → Option DateInfo) (cutoffMs : TimePeriod → Nat)
    (limit : Nat) (itemName : String) (period : TimePeriod)
    (rawStats : Option RawPriceStats) :
    (fetchItemStats env parseDate cutoffMs limit itemName period
        (.success [] rawStats)).error = none ∧
    (fetchItemStats env parseDate cutoffMs limit itemName period
        (.success [] rawStats)).showNoDataMessage = true ∧
    (fetchItemStats env parseDate cutoffMs limit itemName period
        (.success [] rawStats)).priceData = (generateMockData env itemName).data ∧
    (fetchItemStats env parseDate cutoffMs limit itemName period
        (.success [] rawStats)).priceData.length = 366 ∧
    (fetchItemStats env parseDate cutoffMs limit itemName period
        (.success [] rawStats)).stats = some (generateMockData env itemName).stats := by
  refine ⟨rfl, rfl, rfl, ?_, rfl⟩
  exact generateMockData_length env itemName

/-- C7 counterexample: with no upstream reachable for "Sword of Embers" the
fetcher does not raise the "no data" signal (it records the error instead). -/
theorem fetchItemStats_failure_no_signal :
    (fetchItemStats envZero parseDateNone cutoffZero 1000 "Sword of Embers"
        .m1 (.fetchFailure "Failed to fetch")).showNoDataMessage = false := rfl

/-- C7 (amended): when the fetch fails, the fetcher records the error (the
"no data" signal stays off), installs the 366-point synthetic series, and
derives the stats from the synthetic series' own day/week/month/year
deltas. -/
theorem fetchItemStats_failure_fallback (env : JsEnv)
    (parseDate : String → Option DateInfo) (cutoffMs : TimePeriod → Nat)
    (limit : Nat) (itemName : String) (period : TimePeriod) (msg : String) :
    (fetchItemStats env parseDate cutoffMs limit itemName period
        (.fetchFailure msg)).error = some msg ∧
    (fetchItemStats env parseDate cutoffMs limit itemName period
        (.fetchFailure msg)).showNoDataMessage = false ∧
    (fetchItemStats env parseDate cutoffMs limit itemName period
        (.fetchFailure msg)).priceData = (generateMockData env itemName).data ∧
    (fetchItemStats env parseDate cutoffMs limit itemName period
        (.fetchFailure msg)).priceData.length = 366 ∧
    (fetchItemStats env parseDate cutoffMs limit itemName period
        (.fetchFailure msg)).stats =
      some (computeMockStats (generateMockData env itemName).data) := by
  refine ⟨rfl, rfl, rfl, ?_, rfl⟩
  exact generateMockData_length env itemName
/-- C9 counterexample: a 404 from the upstream on the GET route yields an
envelope carrying only `error` — the `details` field is absent, so the
envelope is not the uniform `error`-plus-`details` shape. -/
theorem typesGET_non2xx_no_details :
    (typesGET (fun _ => true) (.response 404 "not found")).status = 404 ∧
    (typesGET (fun _ => true) (.response 404 "not found")).error.isSome = true ∧
    (typesGET (fun _ => true) (.response 404 "not found")).details = none := by
  refine ⟨rfl, rfl, rfl⟩

/-- C9 (amended): every upstream failure path of the `/api/types` route
returns a JSON envelope with `error` set and no passthrough body, using the
upstream status for non-2xx responses and 500 for non-JSON bodies and
network failures; `details` accompanies the POST non-2xx path and both
network-failure paths, while the GET non-2xx envelope omits it and the GET
non-JSON envelope carries a truncated `responseText` instead. -/
theorem types_routes_error_envelope (jsonOk : String → Bool) (status : Nat)
    (text msg : String) :
    (statusOk status = false →
      (typesGET jsonOk (.response status text)).status = status ∧
      (typesGET jsonOk (.response status text)).error.isSome = true ∧
      (typesGET jsonOk (.response status text)).body = none ∧
      (typesGET jsonOk (.response status text)).details = none ∧
      (typesPOST jsonOk (.response status text)).status = status ∧
      (typesPOST jsonOk (.response status text)).error.isSome = true ∧
      (typesPOST jsonOk (.response status text)).body = none ∧
      (typesPOST jsonOk (.response status text)).details.isSome = true) ∧
    (statusOk status = true → jsonOk text = false →
      (typesGET jsonOk (.response status text)).status = 500 ∧
      (typesGET jsonOk (.response status text)).error.isSome = true ∧
      (typesGET jsonOk (.response status text)).body = none ∧
      (typesGET jsonOk (.response status text)).responseText = some (text.take 100) ∧
      (typesPOST jsonOk (.response status text)).status = 500 ∧
      (typesPOST jsonOk (.response status text)).error.isSome = true ∧
      (typesPOST jsonOk (.response status text)).body = none) ∧
    ((typesGET jsonOk (.fetchError msg)).status = 500 ∧
      (typesGET jsonOk (.fetchError msg)).error.isSome = true ∧
      (typesGET jsonOk (.fetchError msg)).details = some (.message msg) ∧
      (typesPOST jsonOk (.fetchError msg)).status = 500 ∧
      (typesPOST jsonOk (.fetchError msg)).error.isSome = true ∧
      (typesPOST jsonOk (.fetchError msg)).details = some (.message msg)) := by
  refine ⟨fun hbad => ?_, fun hok hjson => ?_, ?_⟩
  · have hb : (!statusOk status) = true := by rw [hbad]; rfl
    simp only [typesGET, typesPOST, hb, if_pos]
    and_intros <;> trivial
  · have hb : (!statusOk status) = false := by rw [hok]; rfl
    simp only [typesGET, typesPOST, hb, Bool.false_eq_true, if_neg, hjson,
      if_false]
    and_intros <;> trivial
  · exact ⟨rfl, rfl, rfl, rfl, rfl, rfl⟩

/-- C9 witness: a concrete 404 and a concrete 200-with-non-JSON-body
instantiate the amended envelope description. -/
theorem types_routes_error_envelope_witness :
    (statusOk 404 = false ∧
      ((typesPOST (fun _ => false) (.response 404 "oops")).status = 404 ∧
        (typesPOST (fun _ => false) (.response 404 "oops")).details.isSome = true)) ∧
    (statusOk 200 = true ∧ (fun _ => false : String → Bool) "<html>" = false ∧
      ((typesGET (fun _ => false) (.response 200 "<html>")).status = 500 ∧
        (typesGET (fun _ => false) (.response 200 "<html>")).responseText =
          some ("<html>".take 100))) :=
  ⟨⟨by decide,
    ⟨((types_routes_error_envelope (fun _ => false) 404 "oops" "m").1 (by decide)).2.2.2.2.1,
     ((types_routes_error_envelope (fun _ => false) 404 "oops" "m").1 (by decide)).2.2.2.2.2.2.2⟩⟩,
   ⟨by decide, rfl,
    ⟨((types_routes_error_envelope (fun _ => false) 200 "<html>" "m").2.1 (by decide) rfl).1,
     ((types_routes_error_envelope (fun _ => false) 200 "<html>" "m").2.1 (by decide) rfl).2.2.2.1⟩⟩⟩
